import Mathlib

/-!
Verification development for the `GitRepository` controller (src/git.py).

The controller is a thin wrapper that formats git command strings and hands
them to an external command interpreter.  The shallow embedding below models:

* the pure string manipulation of the Python code (`_format_git_cmd`,
  `str.strip`, `str.lower`, `str.splitlines`, `os.path.join`) as executable
  Lean functions over `String` / `List Char`;
* each method as a function of an oracle `run` giving the external tool's
  response to a command string (`String → String` for captured-output calls,
  `String → Int` for exit-code calls).  Every method returns the ordered
  trace of the command strings it handed to the interpreter together with
  its Python-level result (`Option`/`Except` encode `assert` failures and
  Python exceptions);
* the externally-defined behaviour that some claims quantify over: git's
  expansion of a `--pretty=format:` string, the `grep`/`head` stage of the
  tag pipeline, and an abstract state machine for the repository that the
  lifecycle commands drive (the latter two carry explicit model comments).
-/

/-- Test for the whitespace characters stripped by Python `str.strip()`
(restricted to the ASCII whitespace that can occur in captured git output). -/
def isPySpace (c : Char) : Bool :=
  c == ' ' || c == '\t' || c == '\n' || c == '\r'

/-- Python `str.strip()`: drop leading and trailing whitespace. -/
def pyStrip (s : String) : String :=
  String.mk (((s.data.dropWhile isPySpace).reverse.dropWhile isPySpace).reverse)

/-- Lower-casing of one character, as Python `str.lower()` acts on the ASCII
range (git hashes and refs in this program are ASCII). -/
def pyLowerChar (c : Char) : Char :=
  if 65 ≤ c.toNat ∧ c.toNat ≤ 90 then Char.ofNat (c.toNat + 32) else c

/-- Python `str.lower()` on a string. -/
def pyLower (s : String) : String :=
  String.mk (s.data.map pyLowerChar)

/-- Helper for `pySplitlines`: split a character list at newline characters,
accumulating the current line in reverse. -/
def splitLinesAux : List Char → List Char → List String
  | [], acc => [String.mk acc.reverse]
  | '\n' :: rest, acc => String.mk acc.reverse :: splitLinesAux rest []
  | c :: rest, acc => splitLinesAux rest (c :: acc)

/-- Python `str.splitlines()` on already-stripped text: the empty string
yields `[]`, otherwise the list of newline-separated lines. -/
def pySplitlines (s : String) : List String :=
  if s.data = [] then [] else splitLinesAux s.data []

/-- POSIX `os.path.join` for two components, as used by
`_format_git_cmd` (src/git.py:13). -/
def os_path_join (a b : String) : String :=
  if b.data.head? = some '/' then b
  else if a.data = [] ∨ a.data.getLast? = some '/' then a ++ b
  else a ++ "/" ++ b

/-- Constructor state of the controller: `GitRepository(path, branch)`
(src/git.py:8-10). -/
structure GitRepository where
  path : String
  branch : String

/-- Embedding of `_format_git_cmd` (src/git.py:12-13):
`"git --git-dir='{}' --work-tree='{}' {}".format(os.path.join(path, ".git"), path, cmd)`.
The interpolation is plain concatenation; nothing is quoted or escaped. -/
def format_git_cmd (r : GitRepository) (cmd : String) : String :=
  "git --git-dir=\x27" ++ os_path_join r.path ".git" ++ "\x27 --work-tree=\x27"
    ++ r.path ++ "\x27 " ++ cmd

/-- Embedding of `_git_get_output` (src/git.py:15-16): run the formatted
command, capture stdout, strip it.  `run` is the oracle giving the external
tool's stdout for a command line (the embedding assumes the query exits 0;
a non-zero exit would raise `CalledProcessError` before any of the string
processing modelled here). -/
def git_get_output (r : GitRepository) (run : String → String) (cmd : String) : String :=
  pyStrip (run (format_git_cmd r cmd))

/-- Failure modes of the tag-resolution queries.  `indexError` is Python's
`IndexError` raised by an out-of-range list subscript (`tags[1]` in
`get_log`, src/git.py:39).  `insufficientTags` is the dedicated named
error that the specification demands for the fewer-than-two-tags case;
it is modelled from the spec so the claim can be stated, and the source
never produces it. -/
inductive PyErr where
  | indexError : PyErr
  | insufficientTags : PyErr
deriving DecidableEq

/-- Command text of the tag query in `get_log` (src/git.py:32-33): list all
tag refs sorted by descending tagger date, filter with `grep`, keep the
first two lines. -/
def tags_cmd (pattern : String) : String :=
  "for-each-ref --sort=-taggerdate --format \x27%(tag)\x27 refs/tags | grep \x27"
    ++ pattern ++ "\x27 | head -n2"

/-- Command text of the tag query in `get_latest_tag_commit`
(src/git.py:42-43): as `tags_cmd` but keeping only the first line. -/
def tags1_cmd (pattern : String) : String :=
  "for-each-ref --sort=-taggerdate --format \x27%(tag)\x27 refs/tags | grep \x27"
    ++ pattern ++ "\x27 | head -n1"

/-- The literal `--pretty=format:` payload of `get_log` (src/git.py:37-39):
separator line, short hash, author name and author date, committer name and
committer date, blank line, subject indented by four spaces. -/
def prettyFormat : String :=
  "------------------------------------------------------------------------%ncommit %h%nAuthor: %an <%ad>%nCommit: %cn <%cd>%n%n    %s"

/-- Command text of the log query in `get_log` (src/git.py:35-39), with the
two tag names interpolated as `tags[1]^..tags[0]^`. -/
def log_cmd (older newer : String) : String :=
  "log " ++ older ++ "^.." ++ newer
    ++ "^ --no-merges --stat --pretty=format:\"" ++ prettyFormat ++ "\""

/-- Embedding of `get_commit` (src/git.py:28-29): one query,
`rev-parse --short <branch>`, result stripped and lower-cased.  Returns the
trace of issued command lines paired with the result. -/
def get_commit (r : GitRepository) (run : String → String) : List String × String :=
  let c := format_git_cmd r ("rev-parse --short " ++ r.branch)
  ([c], pyLower (pyStrip (run c)))

/-- Embedding of `get_log` (src/git.py:31-39).  The tag query's stripped
output is split into lines; `tags[1]` and `tags[0]` are then interpolated
into the log query.  With fewer than two lines the subscript raises
`IndexError` and no second command is issued. -/
def get_log (r : GitRepository) (run : String → String) (pattern : String) :
    List String × Except PyErr String :=
  let c1 := format_git_cmd r (tags_cmd pattern)
  match pySplitlines (pyStrip (run c1)) with
  | t0 :: t1 :: _ =>
    let c2 := format_git_cmd r (log_cmd t1 t0)
    ([c1, c2], Except.ok (pyStrip (run c2)))
  | _ => ([c1], Except.error PyErr.indexError)

/-- Embedding of `get_latest_tag_commit` (src/git.py:41-45): the newest
matching tag, then `rev-parse --short <tag>^`. -/
def get_latest_tag_commit (r : GitRepository) (run : String → String)
    (pattern : String) : List String × String :=
  let c1 := format_git_cmd r (tags1_cmd pattern)
  let tag := pyStrip (run c1)
  let c2 := format_git_cmd r ("rev-parse --short " ++ tag ++ "^")
  ([c1, c2], pyStrip (run c2))

/-- Embedding of `update_repository` (src/git.py:47-49).  `run` is the oracle
giving each command line's exit code (`_git_redirected`, src/git.py:18-21);
`_git_redirected_success` (src/git.py:23-26) asserts the code is zero, and a
failed assertion (`none`) stops the method, so later commands are not issued. -/
def update_repository (r : GitRepository) (run : String → Int) :
    List String × Option Unit :=
  let c1 := format_git_cmd r ("checkout \x27" ++ r.branch ++ "\x27")
  if run c1 = 0 then
    let c2 := format_git_cmd r ("pull origin \x27" ++ r.branch ++ "\x27")
    if run c2 = 0 then ([c1, c2], some ()) else ([c1, c2], none)
  else ([c1], none)

/-- Embedding of `prepare_repo` (src/git.py:51-65): check out the branch
(assert success), probe `diff-index --quiet HEAD --` where the raw exit code
is used as the dirty-tree signal (no assertion), stash (with `-u`, untracked
files included) only when dirty, detach HEAD, and return the stash flag. -/
def prepare_repo (r : GitRepository) (run : String → Int) :
    List String × Option Bool :=
  let c1 := format_git_cmd r ("checkout \x27" ++ r.branch ++ "\x27")
  if run c1 = 0 then
    let c2 := format_git_cmd r "diff-index --quiet HEAD --"
    if run c2 ≠ 0 then
      let c3 := format_git_cmd r "stash -u -a"
      if run c3 = 0 then
        let c4 := format_git_cmd r "checkout --detach"
        if run c4 = 0 then ([c1, c2, c3, c4], some true)
        else ([c1, c2, c3, c4], none)
      else ([c1, c2, c3], none)
    else
      let c4 := format_git_cmd r "checkout --detach"
      if run c4 = 0 then ([c1, c2, c4], some false)
      else ([c1, c2, c4], none)
  else ([c1], none)

/-- Embedding of `commit_and_tag` (src/git.py:67-72): stage everything,
commit with the fixed author identity and message, create the annotated tag,
push only tags; each step asserts success, so a failure stops the sequence. -/
def commit_and_tag (r : GitRepository) (tag_name : String) (run : String → Int) :
    List String × Option Unit :=
  let c1 := format_git_cmd r "add ."
  if run c1 = 0 then
    let c2 := format_git_cmd r
      "commit -m \x27Automated build commit\x27 --author=\x27SirKnightly <SirKnightlySCP@gmail.com>\x27"
    if run c2 = 0 then
      let c3 := format_git_cmd r
        ("tag -a \x27" ++ tag_name ++ "\x27 -m \x27Build script tag\x27")
      if run c3 = 0 then
        let c4 := format_git_cmd r "push --tags"
        if run c4 = 0 then ([c1, c2, c3, c4], some ())
        else ([c1, c2, c3, c4], none)
      else ([c1, c2, c3], none)
    else ([c1, c2], none)
  else ([c1], none)

/-- Embedding of `restore_repo` (src/git.py:74-79): check out the branch and,
when the caller's flag says changes were stashed, pop the stash. -/
def restore_repo (r : GitRepository) (stashed_changes : Bool) (run : String → Int) :
    List String × Option Unit :=
  let c1 := format_git_cmd r ("checkout \x27" ++ r.branch ++ "\x27")
  if run c1 = 0 then
    if stashed_changes then
      let c2 := format_git_cmd r "stash pop"
      if run c2 = 0 then ([c1, c2], some ()) else ([c1, c2], none)
    else ([c1], some ())
  else ([c1], none)

/-- Metadata fields of one commit as git exposes them to a pretty-format
string: short hash, author name, author email, author date, committer name,
committer email, committer date, subject. -/
structure CommitInfo where
  h : String
  an : String
  ae : String
  ad : String
  cn : String
  ce : String
  cd : String
  s : String

/-- Expansion of a `--pretty=format:` string by git for one commit (external
tool behaviour; covering the placeholders `%n %h %an %ae %ad %cn %ce %cd %s`,
the only ones relevant here; every other character is copied verbatim). -/
def gitExpand (c : CommitInfo) : List Char → List Char
  | [] => []
  | '%' :: 'n' :: rest => '\n' :: gitExpand c rest
  | '%' :: 'h' :: rest => c.h.data ++ gitExpand c rest
  | '%' :: 'a' :: 'n' :: rest => c.an.data ++ gitExpand c rest
  | '%' :: 'a' :: 'e' :: rest => c.ae.data ++ gitExpand c rest
  | '%' :: 'a' :: 'd' :: rest => c.ad.data ++ gitExpand c rest
  | '%' :: 'c' :: 'n' :: rest => c.cn.data ++ gitExpand c rest
  | '%' :: 'c' :: 'e' :: rest => c.ce.data ++ gitExpand c rest
  | '%' :: 'c' :: 'd' :: rest => c.cd.data ++ gitExpand c rest
  | '%' :: 's' :: rest => c.s.data ++ gitExpand c rest
  | ch :: rest => ch :: gitExpand c rest

/-- One changelog entry as `get_log` receives it from git: the expansion of
the literal format string of src/git.py:37-39 for one commit. -/
def renderEntry (c : CommitInfo) : String :=
  String.mk (gitExpand c prettyFormat.data)

/-- Entry template as the specification words it ("author name/email/date,
committer name/email/date").  Modelled from the spec for comparison with
`renderEntry`; the date follows the bracketed email. -/
def specEntry (c : CommitInfo) : String :=
  "------------------------------------------------------------------------"
    ++ ("\ncommit " ++ (c.h ++ ("\nAuthor: " ++ (c.an ++ (" <" ++ (c.ae ++ ("> "
    ++ (c.ad ++ ("\nCommit: " ++ (c.cn ++ (" <" ++ (c.ce ++ ("> " ++ (c.cd
    ++ ("\n\n    " ++ c.s)))))))))))))))

/-- Match of a single basic-regular-expression atom against one character:
`.` matches anything, any other character matches itself.  Models the
`grep` stage of the tag pipeline (external tool behaviour). -/
def atomMatch (p c : Char) : Bool :=
  p == '.' || p == c

/-- Suffixes of `s` reachable by letting a starred atom `p` consume zero or
more matching leading characters (used for `p*` in the grep model). -/
def starPositions (p : Char) : List Char → List (List Char)
  | [] => [[]]
  | c :: s => (c :: s) :: (if atomMatch p c then starPositions p s else [])

/-- Basic-regular-expression match anchored at the start of `s`, covering
literal characters, `.`, a trailing `$` anchor, and `atom*` — the portion of
grep's BRE dialect a tag pattern can reach.  Models the external `grep`. -/
def matchHere : List Char → List Char → Bool
  | [], _ => true
  | [p], s =>
    if p = '$' then s.isEmpty
    else
      match s with
      | [] => false
      | c :: _ => atomMatch p c
  | p :: q :: ps, s =>
    if q = '*' then (starPositions p s).any (fun t => matchHere ps t)
    else
      match s with
      | [] => false
      | c :: s' => atomMatch p c && matchHere (q :: ps) s'

/-- Grep-style line match: a leading `^` anchors at the start, otherwise the
expression may match starting at any suffix of the line. -/
def grepMatch (pat text : List Char) : Bool :=
  match pat with
  | '^' :: ps => matchHere ps text
  | _ => text.tails.any (fun s => matchHere pat s)

/-- Line filter applied by `grep '<pattern>'` in the tag queries of
src/git.py:32 and src/git.py:42: keep a tag name when the pattern matches it
as a basic regular expression. -/
def grepKeepsLine (pattern line : String) : Bool :=
  grepMatch pattern.data line.data

/-- Filtering stage of the tag pipeline: the tag names surviving
`grep '<pattern>'`. -/
def tagFilter (pattern : String) (tags : List String) : List String :=
  tags.filter (fun t => grepKeepsLine pattern t)

/-- Literal substring containment on character lists (the test the spec
asserts the tag filter performs). -/
def containsSub (pat s : List Char) : Bool :=
  s.tails.any (fun t => List.isPrefixOf pat t)

/-- Characters that are special to grep basic regular expressions. -/
def isMeta (c : Char) : Bool :=
  c == '.' || c == '*' || c == '^' || c == '$' || c == '[' || c == '\\'

/-- Abstract state of the external repository, modelled from the spec's
glossary and section 4.3: which branch (if any) HEAD is attached to, the
commit HEAD points to, each branch's tip commit, the recorded content of
every commit, the current working-tree content, and the stash stack of
set-aside working-tree contents.  Content is abstracted to one value per
tree. -/
structure GitState where
  curBranch : Option String
  headCommit : Nat
  branchTip : String → Nat
  commitTree : Nat → Nat
  tree : Nat
  stashes : List Nat

/-- Clean-tree test: the working tree equals the content recorded at HEAD
(the fact probed by `diff-index --quiet HEAD --`). -/
def isClean (s : GitState) : Bool :=
  s.tree == s.commitTree s.headCommit

/-- Effect of `git checkout <branch>` (external git semantics, modelled from
the spec): HEAD attaches to the branch tip; a clean working tree is replaced
by the branch's content, a dirty one is carried over (the model assumes the
checkout succeeds). -/
def checkoutBranch (b : String) (s : GitState) : GitState :=
  { s with
    curBranch := some b
    headCommit := s.branchTip b
    tree := if isClean s then s.commitTree (s.branchTip b) else s.tree }

/-- Effect of `git stash -u -a` (external git semantics, modelled from the
spec's glossary): the working-tree content is pushed on the stash stack and
the tree is reset to HEAD's recorded content. -/
def stashAll (s : GitState) : GitState :=
  { s with stashes := s.tree :: s.stashes, tree := s.commitTree s.headCommit }

/-- Effect of `git checkout --detach` (external git semantics, modelled from
the spec's glossary): HEAD is detached from its branch; commit, tree and
stash stack are untouched. -/
def detachHead (s : GitState) : GitState :=
  { s with curBranch := none }

/-- Effect of `git stash pop` (external git semantics, modelled from the
spec's glossary): the most recent stash entry is removed and re-applied to
the working tree (the model assumes it applies without conflict; with an
empty stash the command fails and the state is unchanged). -/
def stashPop (s : GitState) : GitState :=
  match s.stashes with
  | [] => s
  | t :: rest => { s with tree := t, stashes := rest }

/-- State effect of `prepare_repo` (src/git.py:51-65) on the modelled
repository, assuming every issued command succeeds: checkout of the
configured branch, dirty probe, conditional stash, detach; paired with the
returned stash flag. -/
def prepareModel (b : String) (s : GitState) : GitState × Bool :=
  let s1 := checkoutBranch b s
  let dirty := !isClean s1
  let s2 := if dirty then stashAll s1 else s1
  (detachHead s2, dirty)

/-- State effect of `restore_repo` (src/git.py:74-79) on the modelled
repository, assuming every issued command succeeds: checkout of the
configured branch, then a stash pop when the flag says changes were
stashed. -/
def restoreModel (b : String) (stashed : Bool) (s : GitState) : GitState :=
  let s1 := checkoutBranch b s
  if stashed then stashPop s1 else s1

/-- Two strings whose first characters differ are different strings. -/
theorem string_head_ne (a b : String) (h : a.data.head? ≠ b.data.head?) : a ≠ b :=
  fun he => h (by rw [he])

/-- Command formatting is injective in the command text: the formatted prefix
is identical, so equal formatted commands have equal command suffixes. -/
theorem format_git_cmd_inj (r : GitRepository) (a b : String)
    (h : format_git_cmd r a = format_git_cmd r b) : a = b := by
  unfold format_git_cmd at h
  apply String.ext
  have h0 := congrArg String.data h
  simp only [String.data_append, List.append_assoc] at h0
  have h1 := List.append_cancel_left h0
  have h2 := List.append_cancel_left h1
  have h3 := List.append_cancel_left h2
  have h4 := List.append_cancel_left h3
  exact List.append_cancel_left h4

/-- Lower-casing one character never yields an ASCII upper-case letter. -/
theorem pyLowerChar_not_upper (c : Char) :
    ¬(65 ≤ (pyLowerChar c).toNat ∧ (pyLowerChar c).toNat ≤ 90) := by
  have hn : c.toNat = c.val.toBitVec.toNat := rfl
  unfold pyLowerChar
  split
  · rename_i hc
    unfold Char.ofNat
    split
    · rename_i hv
      simp [Char.ofNatAux, Char.toNat, UInt32.toNat, BitVec.toNat_ofNat]
      omega
    · rename_i hv
      exfalso
      exact hv (Or.inl (by omega))
  · rename_i hc
    exact hc

/-- Lower-casing a string yields no ASCII upper-case letter anywhere. -/
theorem pyLower_no_upper (s : String) :
    ∀ c ∈ (pyLower s).data, ¬(65 ≤ c.toNat ∧ c.toNat ≤ 90) := by
  intro c hc
  unfold pyLower at hc
  simp only [List.mem_map] at hc
  obtain ⟨d, _, rfl⟩ := hc
  exact pyLowerChar_not_upper d

/-- On a pattern free of grep metacharacters, the anchored matcher coincides
with the list-prefix test. -/
theorem matchHere_literal (pat : List Char) (hp : ∀ c ∈ pat, isMeta c = false) :
    ∀ s, matchHere pat s = pat.isPrefixOf s := by
  induction pat with
  | nil => intro s; simp [matchHere, List.isPrefixOf]
  | cons p ps ih =>
    have hpm := hp p (List.mem_cons_self p ps)
    have hps : ∀ c ∈ ps, isMeta c = false := fun c hc => hp c (List.mem_cons_of_mem p hc)
    have hpdol : ¬(p = '$') := by
      intro h
      rw [h] at hpm
      simp [isMeta] at hpm
    have hpdot : (p == '.') = false := by
      rcases hpd : p == '.' with _ | _
      · rfl
      · rw [isMeta, hpd] at hpm
        simp at hpm
    intro s
    rcases hps0 : ps with _ | ⟨q, qs⟩
    · subst hps0
      have hred : matchHere [p] s =
          (if p = '$' then s.isEmpty
           else match s with | [] => false | c :: _ => atomMatch p c) := rfl
      rw [hred, if_neg hpdol]
      rcases s with _ | ⟨c, s'⟩
      · simp [List.isPrefixOf]
      · simp [List.isPrefixOf, atomMatch, hpdot]
    · subst hps0
      have hq : ¬(q = '*') := by
        intro h
        have := hps '*' (by rw [← h]; exact List.mem_cons_self q qs)
        simp [isMeta] at this
      have hred : matchHere (p :: q :: qs) s =
          (if q = '*' then (starPositions p s).any (fun t => matchHere qs t)
           else match s with | [] => false | c :: s' => atomMatch p c && matchHere (q :: qs) s') := rfl
      rw [hred, if_neg hq]
      rcases s with _ | ⟨c, s'⟩
      · simp [List.isPrefixOf]
      · simp only [List.isPrefixOf, atomMatch, hpdot, Bool.false_or]
        rw [ih hps s']

/-- On a pattern free of grep metacharacters, the grep line match coincides
with literal substring containment. -/
theorem grepMatch_literal (pat text : List Char) (hp : ∀ c ∈ pat, isMeta c = false) :
    grepMatch pat text = containsSub pat text := by
  unfold grepMatch containsSub
  split
  · exfalso
    exact absurd (hp '^' (List.mem_cons_self _ _)) (by decide)
  · congr 1
    funext t
    exact matchHere_literal pat hp t

/-- Fixture repository handle for witnesses and counterexamples. -/
def repo0 : GitRepository :=
  { path := "/repo", branch := "master" }

/-- C1 (counterexample): with no matching tag (the oracle answers the tag
query with empty output), `get_log` fails with Python's `IndexError` from the
out-of-range subscript `tags[1]`, not with the dedicated insufficient-tags
error the claim asserts. -/
theorem get_log_error_counterexample :
    (get_log repo0 (fun _ => "") "v").2 = Except.error PyErr.indexError ∧
    Except.error (ε := PyErr) (α := String) PyErr.indexError ≠
      Except.error PyErr.insufficientTags := by
  constructor
  · rfl
  · simp

/-- C1 (amended): whenever the tag query yields fewer than two lines,
`get_log` fails with the `IndexError` of the out-of-range subscript —
a raised exception, not malformed data, but not a dedicated named
insufficient-tags error. -/
theorem get_log_too_few_tags_index_error (r : GitRepository) (run : String → String)
    (pattern : String)
    (h : (pySplitlines (pyStrip (run (format_git_cmd r (tags_cmd pattern))))).length < 2) :
    (get_log r run pattern).2 = Except.error PyErr.indexError := by
  rcases hl : pySplitlines (pyStrip (run (format_git_cmd r (tags_cmd pattern)))) with
    _ | ⟨t0, _ | ⟨t1, rest⟩⟩
  · simp only [get_log, hl]
  · simp only [get_log, hl]
  · rw [hl] at h
    simp at h
    omega

/-- C1 (witness): the amended theorem applied to the empty-output oracle. -/
theorem get_log_too_few_tags_index_error_witness :
    (get_log repo0 (fun _ => "") "v").2 = Except.error PyErr.indexError :=
  get_log_too_few_tags_index_error repo0 (fun _ => "") "v" (by decide)

/-- Fixture commit for the changelog-template claim: author email and author
date are distinct, so the two templates disagree. -/
def cEx : CommitInfo :=
  { h := "abc1234", an := "Alice", ae := "alice@example.com", ad := "Mon Oct 6 2025",
    cn := "Bob", ce := "bob@example.com", cd := "Tue Oct 7 2025", s := "Fix the build" }

/-- C2 (counterexample): the rendered entry differs from the spec's template
(author name, email, date), and the author email in fact appears nowhere in
the rendered entry — the format string uses `%ad` (author date) in the angle
brackets and has no `%ae`. -/
theorem render_entry_counterexample :
    renderEntry cEx ≠ specEntry cEx ∧
    (renderEntry cEx).data.tails.any
      (fun t => List.isPrefixOf "alice@example.com".data t) = false := by
  constructor
  · decide
  · decide

/-- C2 (amended): every changelog entry follows the fixed template separator
line, `commit <short-hash>`, `Author: <author-name> <<author-date>>`,
`Commit: <committer-name> <<committer-date>>`, blank line, subject indented
by four spaces — author/committer dates stand in the angle brackets and no
email field is rendered. -/
theorem render_entry_template (c : CommitInfo) :
    renderEntry c =
      "------------------------------------------------------------------------" ++ ("\ncommit " ++ (c.h ++ ("\nAuthor: " ++ (c.an ++ (" <" ++ (c.ad ++ (">\nCommit: " ++ (c.cn ++ (" <" ++ (c.cd ++ (">\n\n    " ++ c.s))))))))))) := by
  have h0 : renderEntry c =
      "------------------------------------------------------------------------" ++ ("\ncommit " ++ (c.h ++ ("\nAuthor: " ++ (c.an ++ (" <" ++ (c.ad ++ (">\nCommit: " ++ (c.cn ++ (" <" ++ (c.cd ++ (">\n\n    " ++ (c.s ++ "")))))))))))) := rfl
  rw [h0, String.append_empty]

/-- C3 (counterexample): the grep filter of the tag queries is not a literal
substring test: the pattern `v1.0` keeps the tag `v1x0` (the `.` matches any
character) although `v1.0` is not a substring of `v1x0`. -/
theorem tag_filter_counterexample :
    tagFilter "v1.0" ["v1x0"] = ["v1x0"] ∧
    containsSub "v1.0".data "v1x0".data = false := by
  constructor
  · decide
  · decide

/-- C3 (amended): the tag filter treats the pattern as a grep basic regular
expression; only on patterns free of regex metacharacters does it coincide
with the literal substring test the claim asserts. -/
theorem tag_filter_literal_substring (pattern : String) (tags : List String)
    (hp : ∀ c ∈ pattern.data, isMeta c = false) :
    tagFilter pattern tags = tags.filter (fun t => containsSub pattern.data t.data) := by
  unfold tagFilter
  apply List.filter_congr
  intro t _
  exact grepMatch_literal pattern.data t.data hp

/-- C3 (witness): the amended theorem applied to the metacharacter-free
pattern `rel-`. -/
theorem tag_filter_literal_substring_witness :
    tagFilter "rel-" ["rel-2024.02", "rel-2024.01", "other"] =
      ["rel-2024.02", "rel-2024.01", "other"].filter
        (fun t => containsSub "rel-".data t.data) :=
  tag_filter_literal_substring "rel-" ["rel-2024.02", "rel-2024.01", "other"] (by decide)

/-- C4: assuming the commands whose success is asserted all exit zero, the
dirty probe's exit code only selects the branch: exit zero gives
`stashed = false` and no stash command in the trace, non-zero exit gives
`stashed = true` with the `-u` stash issued, and in either case the method
returns normally — the probe's non-zero exit is never fatal. -/
theorem prepare_repo_probe_semantics (r : GitRepository) (run : String → Int)
    (hco : run (format_git_cmd r ("checkout \x27" ++ r.branch ++ "\x27")) = 0)
    (hst : run (format_git_cmd r "stash -u -a") = 0)
    (hde : run (format_git_cmd r "checkout --detach") = 0) :
    (run (format_git_cmd r "diff-index --quiet HEAD --") = 0 →
      prepare_repo r run =
        ([format_git_cmd r ("checkout \x27" ++ r.branch ++ "\x27"),
          format_git_cmd r "diff-index --quiet HEAD --",
          format_git_cmd r "checkout --detach"], some false) ∧
      format_git_cmd r "stash -u -a" ∉ (prepare_repo r run).1) ∧
    (run (format_git_cmd r "diff-index --quiet HEAD --") ≠ 0 →
      prepare_repo r run =
        ([format_git_cmd r ("checkout \x27" ++ r.branch ++ "\x27"),
          format_git_cmd r "diff-index --quiet HEAD --",
          format_git_cmd r "stash -u -a",
          format_git_cmd r "checkout --detach"], some true)) ∧
    (prepare_repo r run).2.isSome = true := by
  refine ⟨fun hpr => ?_, fun hpr => ?_, ?_⟩
  · have hrep : prepare_repo r run =
        ([format_git_cmd r ("checkout \x27" ++ r.branch ++ "\x27"),
          format_git_cmd r "diff-index --quiet HEAD --",
          format_git_cmd r "checkout --detach"], some false) := by
      simp [prepare_repo, hco, hpr, hde]
    refine ⟨hrep, ?_⟩
    rw [hrep]
    intro hmem
    simp only [List.mem_cons, List.not_mem_nil, or_false] at hmem
    rcases hmem with h | h | h
    · have := format_git_cmd_inj r _ _ h
      exact string_head_ne _ _ (by
        rw [show (("stash -u -a" : String).data.head?) = some 's' from rfl,
          show (("checkout \x27" ++ r.branch ++ "\x27").data.head?) = some 'c' from rfl]
        decide) this
    · exact absurd (format_git_cmd_inj r _ _ h) (by decide)
    · exact absurd (format_git_cmd_inj r _ _ h) (by decide)
  · simp [prepare_repo, hco, hpr, hst, hde]
  · by_cases hpr : run (format_git_cmd r "diff-index --quiet HEAD --") = 0
    · simp [prepare_repo, hco, hpr, hde]
    · simp [prepare_repo, hco, hpr, hst, hde]

/-- C4 (witness): the theorem applied to the all-succeed oracle. -/
theorem prepare_repo_probe_semantics_witness :
    (prepare_repo repo0 (fun _ => 0)).2.isSome = true :=
  (prepare_repo_probe_semantics repo0 (fun _ => 0) rfl rfl rfl).2.2

/-- C5: `commit_and_tag` is exactly the four-step sequence stage-all, commit
with the fixed automation identity and message, annotated tag, push of tags
only — in that order, each step fatal on failure with no later command
issued; and the method never reads the configured branch, so no branch is
ever named in a push (the whole run is independent of the branch field). -/
theorem commit_and_tag_sequence (r : GitRepository) (t : String) (run : String → Int) :
    (commit_and_tag r t run =
      (if run (format_git_cmd r "add .") = 0 then
        if run (format_git_cmd r
            "commit -m \x27Automated build commit\x27 --author=\x27SirKnightly <SirKnightlySCP@gmail.com>\x27") = 0 then
          if run (format_git_cmd r ("tag -a \x27" ++ t ++ "\x27 -m \x27Build script tag\x27")) = 0 then
            if run (format_git_cmd r "push --tags") = 0 then
              ([format_git_cmd r "add .",
                format_git_cmd r
                  "commit -m \x27Automated build commit\x27 --author=\x27SirKnightly <SirKnightlySCP@gmail.com>\x27",
                format_git_cmd r ("tag -a \x27" ++ t ++ "\x27 -m \x27Build script tag\x27"),
                format_git_cmd r "push --tags"], some ())
            else
              ([format_git_cmd r "add .",
                format_git_cmd r
                  "commit -m \x27Automated build commit\x27 --author=\x27SirKnightly <SirKnightlySCP@gmail.com>\x27",
                format_git_cmd r ("tag -a \x27" ++ t ++ "\x27 -m \x27Build script tag\x27"),
                format_git_cmd r "push --tags"], none)
          else
            ([format_git_cmd r "add .",
              format_git_cmd r
                "commit -m \x27Automated build commit\x27 --author=\x27SirKnightly <SirKnightlySCP@gmail.com>\x27",
              format_git_cmd r ("tag -a \x27" ++ t ++ "\x27 -m \x27Build script tag\x27")], none)
        else
          ([format_git_cmd r "add .",
            format_git_cmd r
              "commit -m \x27Automated build commit\x27 --author=\x27SirKnightly <SirKnightlySCP@gmail.com>\x27"], none)
      else ([format_git_cmd r "add ."], none))) ∧
    (∀ b : String, commit_and_tag { path := r.path, branch := b } t run = commit_and_tag r t run) := by
  constructor
  · rfl
  · intro b
    rfl

/-- Fixture state for the round-trip claim: a clean repository checked out on
branch `work`, whose tree content differs from the tip of `master`. -/
def sEx : GitState :=
  { curBranch := some "work"
    headCommit := 0
    branchTip := fun x => if x = "master" then 1 else 0
    commitTree := fun n => n
    tree := 0
    stashes := [] }

/-- C6 (counterexample): started on a different branch than the configured
one, the prepare/restore cycle does not leave the working tree unchanged —
the initial checkout of the configured branch replaces the clean tree with
that branch's content. -/
theorem prepare_restore_counterexample :
    (restoreModel "master" (prepareModel "master" sEx).2 (prepareModel "master" sEx).1).tree ≠
      sEx.tree := by
  decide

/-- C6 (amended): if the repository starts checked out on the configured
branch with HEAD at that branch's tip, `prepare` immediately followed by
`restore` with the returned flag and no intervening mutation restores the
exact original state: same branch, same working tree, same stash stack
(assuming every issued command succeeds, in the modelled git semantics). -/
theorem prepare_restore_roundtrip (s : GitState) (b : String)
    (hbr : s.curBranch = some b) (hhd : s.headCommit = s.branchTip b) :
    restoreModel b (prepareModel b s).2 (prepareModel b s).1 = s := by
  obtain ⟨cb, hc, bt, ct, tr, st⟩ := s
  simp only at hbr hhd
  subst hbr hhd
  by_cases hcl : tr = ct (bt b)
  · subst hcl
    simp [prepareModel, restoreModel, checkoutBranch, isClean, stashAll, detachHead, stashPop]
  · simp [prepareModel, restoreModel, checkoutBranch, isClean, stashAll, detachHead, stashPop, hcl]

/-- Fixture state for the round-trip witness: a dirty repository checked out
on the configured branch `master` with HEAD at its tip. -/
def sW : GitState :=
  { curBranch := some "master"
    headCommit := 1
    branchTip := fun x => if x = "master" then 1 else 0
    commitTree := fun n => n
    tree := 5
    stashes := [] }

/-- C6 (witness): the amended round-trip theorem applied to a dirty state on
the configured branch. -/
theorem prepare_restore_roundtrip_witness :
    restoreModel "master" (prepareModel "master" sW).2 (prepareModel "master" sW).1 = sW :=
  prepare_restore_roundtrip sW "master" rfl (by decide)

/-- C7: when the tag query returns at least two lines (newest first), the
log command `get_log` issues is exactly the exclusive-parent range
`older^..newer^` with merge commits excluded (`--no-merges`) and file-level
change statistics included (`--stat`), under the fixed pretty format. -/
theorem get_log_exclusive_parent_range (r : GitRepository) (run : String → String)
    (pattern t0 t1 : String) (rest : List String)
    (h : pySplitlines (pyStrip (run (format_git_cmd r (tags_cmd pattern)))) = t0 :: t1 :: rest) :
    (get_log r run pattern).1 =
      [format_git_cmd r (tags_cmd pattern),
       format_git_cmd r ("log " ++ t1 ++ "^.." ++ t0
         ++ "^ --no-merges --stat --pretty=format:\"" ++ prettyFormat ++ "\"")] := by
  simp only [get_log, h, log_cmd]

/-- C7 (witness): the range theorem applied to an oracle returning the two
tags `new` and `old`. -/
theorem get_log_exclusive_parent_range_witness :
    (get_log repo0 (fun _ => "new\nold") "rel-").1 =
      [format_git_cmd repo0 (tags_cmd "rel-"),
       format_git_cmd repo0 ("log " ++ "old" ++ "^.." ++ "new"
         ++ "^ --no-merges --stat --pretty=format:\"" ++ prettyFormat ++ "\"")] :=
  get_log_exclusive_parent_range repo0 (fun _ => "new\nold") "rel-" "new" "old" [] (by decide)

/-- C8: `get_commit` issues exactly the query `rev-parse --short <branch>`
for the configured branch, returns the captured output stripped and
lower-cased, and its result never contains an ASCII upper-case letter. -/
theorem get_commit_trimmed_lowercase (r : GitRepository) (run : String → String) :
    (get_commit r run).1 = [format_git_cmd r ("rev-parse --short " ++ r.branch)] ∧
    (get_commit r run).2 =
      pyLower (pyStrip (run (format_git_cmd r ("rev-parse --short " ++ r.branch)))) ∧
    ∀ c ∈ (get_commit r run).2.data, ¬(65 ≤ c.toNat ∧ c.toNat ≤ 90) := by
  refine ⟨rfl, rfl, ?_⟩
  exact pyLower_no_upper (pyStrip (run (format_git_cmd r ("rev-parse --short " ++ r.branch))))

/-- C9 (counterexample): `update_repository` spawns two subprocesses (a
checkout and a pull), not exactly one per call as the claim asserts. -/
theorem update_repository_spawns_two :
    (update_repository repo0 (fun _ => 0)).1.length = 2 ∧ (2 : Nat) ≠ 1 := by
  constructor
  · rfl
  · decide

/-- C9 (amended): every public operation issues a bounded, non-zero number
of sequential blocking subprocess invocations — one per logical git command,
between one and four per call — rather than exactly one. -/
theorem operations_spawn_bounded_processes (r : GitRepository)
    (runq : String → String) (runa : String → Int) (p t : String) (st : Bool) :
    (get_commit r runq).1.length = 1 ∧
    ((get_log r runq p).1.length = 1 ∨ (get_log r runq p).1.length = 2) ∧
    (get_latest_tag_commit r runq p).1.length = 2 ∧
    ((update_repository r runa).1.length = 1 ∨ (update_repository r runa).1.length = 2) ∧
    (1 ≤ (prepare_repo r runa).1.length ∧ (prepare_repo r runa).1.length ≤ 4) ∧
    (1 ≤ (commit_and_tag r t runa).1.length ∧ (commit_and_tag r t runa).1.length ≤ 4) ∧
    ((restore_repo r st runa).1.length = 1 ∨ (restore_repo r st runa).1.length = 2) := by
  refine ⟨rfl, ?_, rfl, ?_, ?_, ?_, ?_⟩
  · rcases hl : pySplitlines (pyStrip (runq (format_git_cmd r (tags_cmd p)))) with
      _ | ⟨t0, _ | ⟨t1, rest⟩⟩ <;> simp [get_log, hl]
  · simp only [update_repository]
    split
    · split <;> simp
    · simp
  · simp only [prepare_repo]
    split
    · split
      · split
        · split <;> simp
        · simp
      · split <;> simp
    · simp
  · simp only [commit_and_tag]
    split
    · split
      · split
        · split <;> simp
        · simp
      · simp
    · simp
  · simp only [restore_repo]
    split
    · split
      · split <;> simp
      · simp
    · simp

/-- C10 (counterexample): with an empty repository path, `os.path.join`
drops the separator, so the formatted command is not the claimed literal
`git --git-dir='<path>/.git' --work-tree='<path>' <cmd>` shape. -/
theorem format_git_cmd_path_counterexample :
    format_git_cmd { path := "", branch := "b" } "status" =
      "git --git-dir=\x27.git\x27 --work-tree=\x27\x27 status" ∧
    ("git --git-dir=\x27.git\x27 --work-tree=\x27\x27 status" : String) ≠
      "git --git-dir=\x27/.git\x27 --work-tree=\x27\x27 status" := by
  constructor
  · rfl
  · decide

/-- C10 (amended): for every non-empty path without a trailing separator,
command construction is exactly the deterministic interpolation
`git --git-dir='<path>/.git' --work-tree='<path>' <cmd>` with the path and
command text inserted verbatim — no quoting or escaping, so any shell
metacharacter in them reaches the interpreter unchanged. -/
theorem format_git_cmd_verbatim_interpolation (path branch cmd : String)
    (h1 : path.data ≠ []) (h2 : path.data.getLast? ≠ some '/') :
    format_git_cmd { path := path, branch := branch } cmd =
      "git --git-dir=\x27" ++ path ++ "/.git\x27 --work-tree=\x27" ++ path ++ "\x27 " ++ cmd := by
  unfold format_git_cmd os_path_join
  rw [if_neg (by decide), if_neg (by simp [h1, h2])]
  apply String.ext
  simp [String.data_append]

/-- C10 (witness): the interpolation theorem applied to a path containing a
single-quote metacharacter, which lands verbatim in the command line. -/
theorem format_git_cmd_verbatim_interpolation_witness :
    format_git_cmd { path := "/tmp/o\x27brien", branch := "b" } "status" =
      "git --git-dir=\x27" ++ "/tmp/o\x27brien" ++ "/.git\x27 --work-tree=\x27"
        ++ "/tmp/o\x27brien" ++ "\x27 " ++ "status" :=
  format_git_cmd_verbatim_interpolation "/tmp/o\x27brien" "b" "status"
    (by decide) (by decide)
